import Mathlib

/-!
Verification development for the conversational backend in `src/main.py`
(FastAPI service "API Coprodelito").

The Python source is shallowly embedded below. Pure text helpers model the
Python string primitives used by the source (`strip`, `lower`, `capitalize`,
`split('\n')`, `'sep'.join`, the `in` substring test, truthiness). The two
out-of-process collaborators (the Gemini text-generation calls) are modelled
as oracle functions `String → Option String`, where `none` models a raised
exception and `some raw` models a call that returned text `raw`. The global
singleton `ConversationState` is modelled as an explicit record threaded
through the handlers. Case mapping is modelled on ASCII letters (the
concrete inputs used in theorems below only exercise ASCII case).
-/

/-- ASCII whitespace test used to model Python `str.strip`. -/
def isWs (c : Char) : Bool :=
  c == ' ' || c == '\t' || c == '\n' || c == '\r'

/-- Model of Python `str.strip()`: drop leading and trailing whitespace. -/
def pyStrip (s : String) : String :=
  String.mk (((s.data.dropWhile isWs).reverse.dropWhile isWs).reverse)

/-- Model of Python `str.lower()` (ASCII case mapping). -/
def pyLower (s : String) : String :=
  String.mk (s.data.map Char.toLower)

/-- Model of Python `str.capitalize()`: first character uppercased, the rest
lowercased; the empty string maps to itself. -/
def pyCapitalize (s : String) : String :=
  match s.data with
  | [] => ""
  | c :: cs => String.mk (c.toUpper :: cs.map Char.toLower)

/-- `leadsWith p s` is true when the character list `p` is an initial
segment of `s`. -/
def leadsWith : List Char → List Char → Bool
  | [], _ => true
  | _ :: _, [] => false
  | p :: ps, c :: cs => p == c && leadsWith ps cs

/-- `hasSubList pat s` is true when `pat` occurs contiguously inside `s`. -/
def hasSubList (pat : List Char) : List Char → Bool
  | [] => leadsWith pat []
  | c :: cs => leadsWith pat (c :: cs) || hasSubList pat cs

/-- Model of the Python substring test `pat in hay`. -/
def hasSubstr (hay pat : String) : Bool :=
  hasSubList pat.data hay.data

/-- Accumulator-style splitter on the newline character, modelling
Python `str.split('\n')` (empty pieces are kept). -/
def splitNlAux (acc : List Char) : List Char → List (List Char)
  | [] => [acc.reverse]
  | c :: cs =>
    if c == '\n' then acc.reverse :: splitNlAux [] cs
    else splitNlAux (c :: acc) cs

/-- Model of Python `text.split('\n')`. -/
def pySplitLines (s : String) : List String :=
  (splitNlAux [] s.data).map String.mk

/-- Model of Python `sep.join(pieces)`. -/
def joinWith (sep : String) : List String → String
  | [] => ""
  | [x] => x
  | x :: y :: xs => x ++ sep ++ joinWith sep (y :: xs)

/-- Model of the Python slice `l[-n:]`: the last `n` elements of `l`
(all of `l` when it is shorter than `n`). -/
def lastN {α : Type _} (n : Nat) (l : List α) : List α :=
  l.drop (l.length - n)

/-- Python truthiness of an `Optional[str]`: `None` and `""` are falsy. -/
def pyTruthy : Option String → Bool
  | none => false
  | some s => !(s == "")

/-- One entry of `state.history` in `src/main.py`: a dict with keys
`role` and `content`. -/
structure Turn where
  role : String
  content : String
deriving DecidableEq, Repr

/-- The data fields of the `ConversationState` singleton in `src/main.py`
(`reset`, lines 117-124). The `asyncio.Lock` is not data and is omitted.
`emotions` is a Python `set()` in the source; it is modelled as a list,
which is faithful because no code path in `src/main.py` ever inserts into
it after `reset`. -/
structure ConversationState where
  history : List Turn
  emotions : List String
  situations : List String
  student_email : Option String
  doc_id : Option String
  first_message : Option String
deriving DecidableEq, Repr

/-- `ConversationState.reset` (src/main.py lines 117-124): all fields
cleared. -/
def resetState : ConversationState :=
  { history := [], emotions := [], situations := [],
    student_email := none, doc_id := none, first_message := none }

/-- `needs_recommendations` (src/main.py lines 339-342): keyword substring
test on the lowercased text. -/
def needs_recommendations (text : String) : Bool :=
  ["consejo", "recomendación", "qué hago", "ayuda", "sugerencia"].any
    (fun k => hasSubstr (pyLower text) k)

/-- `is_topic_change` (src/main.py lines 326-337): true when the history has
fewer than 2 entries, otherwise true exactly when no connector word occurs
as a substring of the space-joined lowercased contents of the user turns
among the last 3 history entries. -/
def is_topic_change (history : List Turn) : Bool :=
  if history.length < 2 then true
  else
    let last_messages :=
      ((lastN 3 history).filter (fun m => m.role == "user")).map
        (fun m => pyLower m.content)
    let joined := joinWith " " last_messages
    !(["y", "además", "también", "pero", "aunque", "luego"].any
        (fun c => hasSubstr joined c))

/-- `detect_emotion` (src/main.py lines 344-355). `modeloOk` models the
`if not modelo` guard; `classify` is the oracle for the synchronous
`modelo.generate_content` call on the given text (`none` models a raised
exception, caught by the bare `except`). On success the raw reply is
stripped and capitalized. -/
def detect_emotion (modeloOk : Bool) (classify : String → Option String)
    (text : String) : Option String :=
  if !modeloOk then none
  else
    match classify text with
    | none => none
    | some raw => some (pyCapitalize (pyStrip raw))

/-- The emotion-detection block of `process_response`
(src/main.py lines 313-317): when the topic changed and the text does not
contain the substring "emoción detectada" (case-insensitively), classify
the original user message and, if the label is truthy, put the sentinel
line in front of the text. -/
def emotion_step (modeloOk : Bool) (classify : String → Option String)
    (history : List Turn) (text original_msg : String) : String :=
  if is_topic_change history && !(hasSubstr (pyLower text) "emoción detectada") then
    let emotion := detect_emotion modeloOk classify original_msg
    if pyTruthy emotion then
      "Emoción detectada: " ++ emotion.getD "" ++ " 😊\n" ++ text
    else text
  else text

/-- The recommendation-formatting block of `process_response`
(src/main.py lines 319-322): when the user asked for advice and the text
has no bullet marker, keep the first 3 non-empty stripped lines, each
turned into a bullet line. -/
def advice_step (original_msg text : String) : String :=
  if needs_recommendations original_msg && !(hasSubstr text "🔹") then
    let lines := ((pySplitLines text).map pyStrip).filter (fun l => !(l == ""))
    joinWith "\n" ((lines.take 3).map (fun l => "🔹 " ++ l))
  else text

/-- `process_response` (src/main.py lines 308-324): fallback for empty
text, then the emotion block, then the recommendation block, in source
order. -/
def process_response (modeloOk : Bool) (classify : String → Option String)
    (history : List Turn) (text original_msg : String) : String :=
  if text == "" then "No pude generar una respuesta. ¿Puedes intentarlo de nuevo?"
  else advice_step original_msg (emotion_step modeloOk classify history text original_msg)

/-- The context string built in `generate_response`
(src/main.py lines 271-275): the last 5 history entries, each formatted as
`role: content`, joined by newlines. -/
def context_of (history : List Turn) : String :=
  joinWith "\n" ((lastN 5 history).map (fun m => m.role ++ ": " ++ m.content))

/-- `generate_response` (src/main.py lines 263-306). The user turn is
appended first and `first_message` captured if falsy; then the prompt is
built from the context window and the generation oracle `gen` is consulted
(`none` models `generate_content_async` raising, caught by the `except`
which returns the canned apology with no assistant turn appended). On
success the stripped reply is post-processed and appended as an assistant
turn. -/
def generate_response (modeloOk : Bool) (gen classify : String → Option String)
    (s : ConversationState) (message : String) : String × ConversationState :=
  let s1 : ConversationState :=
    { s with history := s.history ++ [{ role := "user", content := message }] }
  let s2 : ConversationState :=
    if !pyTruthy s1.first_message then { s1 with first_message := some message } else s1
  let prompt :=
    "Eres Coprodelito, un asistente emocional. Contexto:\n" ++ context_of s2.history ++
    "\n\nNuevo mensaje: \"" ++ message ++ "\"\n\nResponde de forma empática y natural."
  match gen prompt with
  | none => ("¡Vaya! Algo salió mal. Por favor inténtalo de nuevo.", s2)
  | some raw =>
    let text := process_response modeloOk classify s2.history (pyStrip raw) message
    (text, { s2 with history := s2.history ++ [{ role := "assistant", content := text }] })

/-- The `/chat` endpoint handler (src/main.py lines 240-260) composed with
`ChatRequest.validate_message`. In source order: the `modelo` availability
guard (503), the message validation (a `ValueError` for an
empty-after-strip message is caught by the generic handler and becomes a
500), the session guard (400 when `student_email` is falsy), then
`generate_response` on the stripped message. The handler returns the reply
paired with the resulting state. -/
def chat (modeloOk : Bool) (gen classify : String → Option String)
    (s : ConversationState) (rawMessage : String) :
    Except (Nat × String) String × ConversationState :=
  if !modeloOk then (Except.error (503, "Servicio de IA no disponible"), s)
  else if pyStrip rawMessage == "" then (Except.error (500, "Error procesando mensaje"), s)
  else if !pyTruthy s.student_email then (Except.error (400, "Sesión no iniciada"), s)
  else
    let r := generate_response modeloOk gen classify s (pyStrip rawMessage)
    (Except.ok r.1, r.2)

/-- The state of a session right after a `/welcome` call for
`ana.perez@spc.edu.pe` (src/main.py lines 222-238): history holds the
single assistant greeting and `student_email` is set. -/
def demoWelcome : ConversationState :=
  { history := [Turn.mk "assistant"
      "¡Hola Ana Perez! 👋 Soy Coprodelito, tu asistente emocional. ¿Cómo te sientes hoy?"],
    emotions := [], situations := [],
    student_email := some "ana.perez@spc.edu.pe",
    doc_id := none, first_message := none }

/-- A string starts with itself followed by anything. -/
theorem leadsWith_self_append (p r : List Char) : leadsWith p (p ++ r) = true := by
  induction p with
  | nil => rfl
  | cons c cs ih => simp [leadsWith, ih]

/-- Taking the last `n` elements ignores any prefix when the suffix already
has at least `n` elements. -/
theorem lastN_append {α : Type _} (n : Nat) (pre l : List α) (h : n ≤ l.length) :
    lastN n (pre ++ l) = lastN n l := by
  unfold lastN
  rw [List.length_append,
    show pre.length + l.length - n = pre.length + (l.length - n) by omega,
    List.drop_append]

/-- Taking the last `n` elements of a list of at most `n` elements keeps the
whole list. -/
theorem lastN_of_le {α : Type _} (n : Nat) (l : List α) (h : l.length ≤ n) :
    lastN n l = l := by
  unfold lastN
  rw [Nat.sub_eq_zero_of_le h, List.drop_zero]

/-- The topic-change test only looks at the last 3 history entries, so a
prefix in front of at least 3 entries is invisible to it. -/
theorem is_topic_change_append (pre l : List Turn) (h : 3 ≤ l.length) :
    is_topic_change (pre ++ l) = is_topic_change l := by
  unfold is_topic_change
  rw [List.length_append, lastN_append 3 pre l (by omega)]
  have h1 : ¬ (pre.length + l.length < 2) := by omega
  have h2 : ¬ (l.length < 2) := by omega
  simp [h1, h2]

/-- `process_response` depends on the history only through the
topic-change test. -/
theorem process_response_hist_congr (mo : Bool) (c : String → Option String)
    (h1 h2 : List Turn) (t o : String)
    (e : is_topic_change h1 = is_topic_change h2) :
    process_response mo c h1 t o = process_response mo c h2 t o := by
  unfold process_response emotion_step
  rw [e]

/-- C6: when the text-generation collaborator raises during a turn, the
handler returns the canned apology, appends no assistant turn (the history
gains exactly the user turn appended before the call), leaves `emotions`,
`situations`, the persistence handle and the session identity unchanged,
and the failure is absorbed rather than propagated (the function returns
normally). -/
theorem generation_failure_degrades (c : String → Option String)
    (s : ConversationState) (m : String) :
    (generate_response true (fun _ => none) c s m).1 =
      "¡Vaya! Algo salió mal. Por favor inténtalo de nuevo."
    ∧ (generate_response true (fun _ => none) c s m).2.history =
        s.history ++ [Turn.mk "user" m]
    ∧ (generate_response true (fun _ => none) c s m).2.emotions = s.emotions
    ∧ (generate_response true (fun _ => none) c s m).2.situations = s.situations
    ∧ (generate_response true (fun _ => none) c s m).2.doc_id = s.doc_id
    ∧ (generate_response true (fun _ => none) c s m).2.student_email = s.student_email := by
  simp only [generate_response]
  split <;> simp

/-- C10: calling the chat handler with a valid (non-empty) message while no
session has been started (falsy `student_email`) rejects the turn with the
400 "Sesión no iniciada" error and returns the state completely
unchanged. -/
theorem chat_requires_session (g c : String → Option String)
    (s : ConversationState) (raw : String)
    (hval : pyStrip raw ≠ "") (hsess : pyTruthy s.student_email = false) :
    chat true g c s raw = (Except.error (400, "Sesión no iniciada"), s) := by
  unfold chat
  simp [hval, hsess]

/-- Witness for `chat_requires_session` at a concrete input: a freshly
reset state with no student email and the message "hola". -/
theorem chat_requires_session_witness :
    chat true (fun _ => some "ok") (fun _ => none) resetState "hola" =
      (Except.error (400, "Sesión no iniciada"), resetState) :=
  chat_requires_session (fun _ => some "ok") (fun _ => none) resetState "hola"
    (by decide) (by decide)

/-- C2 (code bug): no code path of `src/main.py` ever writes to `emotions`
or `situations` after `reset` — there is no `record_emotion` operation in
the source at all. In particular, on the spec's own scenario (fresh
welcomed session, utterance "me siento triste por mi examen", classifier
answering "tristeza"), the reply does carry the sentinel with the label
Tristeza, yet `emotions` and `situations` both stay empty instead of
gaining the deduplicated entry the claim describes. -/
theorem record_emotion_missing :
    (∀ (mo : Bool) (g c : String → Option String) (s : ConversationState) (m : String),
      (generate_response mo g c s m).2.emotions = s.emotions
      ∧ (generate_response mo g c s m).2.situations = s.situations)
    ∧ leadsWith "Emoción detectada: Tristeza 😊".data
        (generate_response true (fun _ => some "Lo siento mucho.")
          (fun _ => some "tristeza") demoWelcome "me siento triste por mi examen").1.data = true
    ∧ (generate_response true (fun _ => some "Lo siento mucho.")
        (fun _ => some "tristeza") demoWelcome "me siento triste por mi examen").2.emotions = []
    ∧ (generate_response true (fun _ => some "Lo siento mucho.")
        (fun _ => some "tristeza") demoWelcome "me siento triste por mi examen").2.situations = [] := by
  refine ⟨?_, by decide, by decide, by decide⟩
  intro mo g c s m
  simp only [generate_response]
  split <;> split <;> simp

/-- C3 (code bug): the chat pipeline of `src/main.py` never touches the
document store — `db` is only used by `/register` and `/login` — so the
persistence handle `doc_id` is unchanged by every turn, and on the spec's
first-detected-emotion scenario no document is created: `doc_id` is still
`none` even though the reply carries a freshly detected emotion
sentinel. -/
theorem persistence_missing :
    (∀ (mo : Bool) (g c : String → Option String) (s : ConversationState) (m : String),
      (generate_response mo g c s m).2.doc_id = s.doc_id)
    ∧ (∀ (mo : Bool) (g c : String → Option String) (s : ConversationState) (raw : String),
      (chat mo g c s raw).2.doc_id = s.doc_id)
    ∧ leadsWith "Emoción detectada: ".data
        (generate_response true (fun _ => some "Te acompaño en esto.")
          (fun _ => some "miedo") demoWelcome "tengo miedo del examen final").1.data = true
    ∧ (generate_response true (fun _ => some "Te acompaño en esto.")
        (fun _ => some "miedo") demoWelcome "tengo miedo del examen final").2.doc_id = none := by
  have hgen : ∀ (mo : Bool) (g c : String → Option String) (s : ConversationState) (m : String),
      (generate_response mo g c s m).2.doc_id = s.doc_id := by
    intro mo g c s m
    simp only [generate_response]
    split <;> split <;> simp
  refine ⟨hgen, ?_, by decide, by decide⟩
  intro mo g c s raw
  unfold chat
  split
  · simp
  · split
    · simp
    · split
      · simp
      · simp [hgen]

/-- C1 counterexample: on a concrete welcomed session, the utterance
"muchas gracias por todo" (which contains the gratitude keyword "gracias")
is NOT short-circuited: the history grows from 1 to 3 turns and the reply
even carries an emotion sentinel, showing that classification ran. -/
theorem gratitude_short_circuit_cex :
    (generate_response true (fun _ => some "De nada") (fun _ => some "gratitud")
      demoWelcome "muchas gracias por todo").2.history ≠ demoWelcome.history
    ∧ ((generate_response true (fun _ => some "De nada") (fun _ => some "gratitud")
        demoWelcome "muchas gracias por todo").2.history).length = 3
    ∧ hasSubstr (generate_response true (fun _ => some "De nada") (fun _ => some "gratitud")
        demoWelcome "muchas gracias por todo").1 "Emoción detectada: Gratitud" = true := by
  decide

/-- C1 amended: there is no gratitude short-circuit in `src/main.py`; an
utterance containing "gracias" is handled like any other turn: the user
turn is appended to the history, and either generation fails (history
gains only the user turn) or the processed reply is appended as an
assistant turn. -/
theorem gratitude_no_short_circuit (g c : String → Option String)
    (s : ConversationState) (m : String)
    (_hm : hasSubstr (pyLower m) "gracias" = true) :
    (generate_response true g c s m).2.history = s.history ++ [Turn.mk "user" m]
    ∨ (generate_response true g c s m).2.history =
        s.history ++ [Turn.mk "user" m,
          Turn.mk "assistant" (generate_response true g c s m).1] := by
  simp only [generate_response]
  split <;> split <;> simp

/-- Witness for `gratitude_no_short_circuit` at the concrete gratitude
utterance "muchas gracias". -/
theorem gratitude_no_short_circuit_witness :
    (generate_response true (fun _ => some "De nada") (fun _ => none)
        demoWelcome "muchas gracias").2.history
      = demoWelcome.history ++ [Turn.mk "user" "muchas gracias"]
    ∨ (generate_response true (fun _ => some "De nada") (fun _ => none)
        demoWelcome "muchas gracias").2.history
      = demoWelcome.history ++ [Turn.mk "user" "muchas gracias",
          Turn.mk "assistant" (generate_response true (fun _ => some "De nada") (fun _ => none)
            demoWelcome "muchas gracias").1] :=
  gratitude_no_short_circuit (fun _ => some "De nada") (fun _ => none)
    demoWelcome "muchas gracias" (by decide)

/-- The topic-change predicate as the claim words it: fewer than 2 turns,
or no connector word among the concatenation of the last up-to-3 USER
turns (of the whole history). Stated for comparison with the source's
`is_topic_change`, which instead looks at the user turns among the last 3
history entries of either role. -/
def topic_change_claimed (history : List Turn) : Bool :=
  if history.length < 2 then true
  else
    !(["y", "además", "también", "pero", "aunque", "luego"].any
        (fun c => hasSubstr (joinWith " "
          (lastN 3 ((history.filter (fun m => m.role == "user")).map
            (fun m => pyLower m.content)))) c))

/-- C4 counterexample: a 5-turn history whose third-from-last user turn
contains the connector "pero". The claim's reading (last up-to-3 user
turns) makes the predicate false, but the source's `is_topic_change` only
sees the user turns among the last 3 history entries and returns true. -/
theorem topic_change_claim_cex :
    is_topic_change [Turn.mk "user" "pero estoy mal", Turn.mk "assistant" "entiendo",
      Turn.mk "user" "no se", Turn.mk "assistant" "claro", Turn.mk "user" "no se"] = true
    ∧ topic_change_claimed [Turn.mk "user" "pero estoy mal", Turn.mk "assistant" "entiendo",
      Turn.mk "user" "no se", Turn.mk "assistant" "claro", Turn.mk "user" "no se"] = false := by
  decide

/-- C4 amended: `is_topic_change` returns true exactly when the history
has fewer than 2 entries, or when none of the six connector words occurs
as a substring of the space-joined lowercased contents of the user turns
among the last 3 history entries (of either role). In particular it is
true on a freshly reset session. -/
theorem topic_change_characterization (h : List Turn) :
    is_topic_change h = true ↔
      (h.length < 2 ∨
        ∀ c ∈ (["y", "además", "también", "pero", "aunque", "luego"] : List String),
          hasSubstr (joinWith " " (((lastN 3 h).filter (fun m => m.role == "user")).map
            (fun m => pyLower m.content))) c = false) := by
  unfold is_topic_change
  by_cases hl : h.length < 2
  · simp [hl]
  · simp [hl, List.any_eq_false]

/-- C5 counterexample: a generated reply that contains the sentinel
substring but does not START with it. The claim requires the extractor to
run (the reply does not start with the sentinel) and the sentinel line to
be put in front; the source's containment test skips classification
entirely and returns the reply unchanged. -/
theorem sentinel_gate_cex :
    leadsWith "Emoción detectada".data "Te entiendo.\nemoción detectada: algo".data = false
    ∧ is_topic_change [Turn.mk "assistant" "hola"] = true
    ∧ process_response true (fun _ => some "alegría") [Turn.mk "assistant" "hola"]
        "Te entiendo.\nemoción detectada: algo" "me siento raro"
      = "Te entiendo.\nemoción detectada: algo"
    ∧ ("Te entiendo.\nemoción detectada: algo" : String) ≠
        "Emoción detectada: Alegría 😊\n" ++ "Te entiendo.\nemoción detectada: algo" := by
  decide

/-- C5 amended: when the topic changed and the reply does not CONTAIN the
substring "emoción detectada" (case-insensitively) anywhere, the
classifier oracle is consulted on the original user utterance and the
returned text is the sentinel line followed by a newline and the reply;
when the reply already contains that substring, no classification call is
made at all (the result does not depend on the classifier oracle) and no
label is parsed back out of the text. -/
theorem sentinel_gate_amended (f g : String → Option String) (h : List Turn)
    (t orig raw t2 : String)
    (ht : t ≠ "") (htc : is_topic_change h = true)
    (hno : hasSubstr (pyLower t) "emoción detectada" = false)
    (hadv : needs_recommendations orig = false)
    (hf : f orig = some raw) (hlab : pyCapitalize (pyStrip raw) ≠ "")
    (h2 : hasSubstr (pyLower t2) "emoción detectada" = true) :
    process_response true f h t orig =
      "Emoción detectada: " ++ pyCapitalize (pyStrip raw) ++ " 😊\n" ++ t
    ∧ process_response true f h t2 orig = process_response true g h t2 orig := by
  constructor
  · unfold process_response emotion_step detect_emotion
    simp [ht, htc, hno, hf, pyTruthy, hlab, advice_step, hadv]
  · unfold process_response emotion_step
    simp [h2]

/-- Witness for `sentinel_gate_amended` at concrete inputs. -/
theorem sentinel_gate_amended_witness :
    process_response true (fun _ => some "alegría") [Turn.mk "assistant" "hola"]
        "Te escucho." "me siento raro" =
      "Emoción detectada: " ++ pyCapitalize (pyStrip "alegría") ++ " 😊\n" ++ "Te escucho."
    ∧ process_response true (fun _ => some "alegría") [Turn.mk "assistant" "hola"]
        "ya hay una emoción detectada aquí" "me siento raro" =
      process_response true (fun _ => none) [Turn.mk "assistant" "hola"]
        "ya hay una emoción detectada aquí" "me siento raro" :=
  sentinel_gate_amended (fun _ => some "alegría") (fun _ => none)
    [Turn.mk "assistant" "hola"] "Te escucho." "me siento raro" "alegría"
    "ya hay una emoción detectada aquí"
    (by decide) (by decide) (by decide) (by decide) rfl (by decide) (by decide)

/-- C9 counterexample: when the classifier call succeeds but returns only
whitespace, `detect_emotion` yields the empty string, not `None` as the
claim states. -/
theorem empty_extraction_cex :
    detect_emotion true (fun _ => some "   ") "hola" = some ""
    ∧ (some "" : Option String) ≠ none := by
  decide

/-- C9 amended: when the classifier call fails the extractor yields
`None`, and when it returns empty (or whitespace-only) text it yields the
empty-string label; in both cases the label is falsy, so no sentinel is
prepended and the turn completes returning the generated reply without an
emotion annotation. -/
theorem extraction_failure_soft (f : String → Option String) (h : List Turn)
    (t orig : String) (ht : t ≠ "") (hadv : needs_recommendations orig = false)
    (hfail : f orig = none ∨ ∃ w, f orig = some w ∧ pyStrip w = "") :
    pyTruthy (detect_emotion true f orig) = false
    ∧ process_response true f h t orig = t := by
  have hdet : pyTruthy (detect_emotion true f orig) = false := by
    rcases hfail with hf | ⟨w, hw, hsw⟩
    · simp [detect_emotion, hf, pyTruthy]
    · simp only [detect_emotion, hw, hsw]
      decide
  refine ⟨hdet, ?_⟩
  unfold process_response emotion_step
  simp [ht, hdet, advice_step, hadv, ite_self]

/-- Witness for `extraction_failure_soft`: classifier returning
whitespace-only text on a concrete turn. -/
theorem extraction_failure_soft_witness :
    pyTruthy (detect_emotion true (fun _ => some "  ") "me siento raro") = false
    ∧ process_response true (fun _ => some "  ") [] "Te escucho." "me siento raro"
      = "Te escucho." :=
  extraction_failure_soft (fun _ => some "  ") [] "Te escucho." "me siento raro"
    (by decide) (by decide) (Or.inr ⟨"  ", rfl, by decide⟩)

/-- C7: when advice is requested and the reply text at the formatting step
has no bullet marker, the returned text is exactly the join of the first
at-most-3 non-empty stripped lines of that text, each given the bullet
marker in front; the resulting bullet list has at most 3 entries and every
entry starts with the bullet marker. -/
theorem advice_bullet_format (mo : Bool) (c : String → Option String) (h : List Turn)
    (t orig : String) (ht : t ≠ "") (hadv : needs_recommendations orig = true)
    (hnb : hasSubstr (emotion_step mo c h t orig) "🔹" = false) :
    process_response mo c h t orig =
      joinWith "\n" (((((pySplitLines (emotion_step mo c h t orig)).map pyStrip).filter
        (fun l => !(l == ""))).take 3).map (fun l => "🔹 " ++ l))
    ∧ (((((pySplitLines (emotion_step mo c h t orig)).map pyStrip).filter
        (fun l => !(l == ""))).take 3).map (fun l => "🔹 " ++ l)).length ≤ 3
    ∧ (((((pySplitLines (emotion_step mo c h t orig)).map pyStrip).filter
        (fun l => !(l == ""))).take 3).map (fun l => "🔹 " ++ l)).all
        (fun b => leadsWith "🔹 ".data b.data) = true := by
  refine ⟨?_, ?_, ?_⟩
  · unfold process_response advice_step
    simp [ht, hadv, hnb]
  · simp only [List.length_map, List.length_take]
    exact Nat.le_trans (Nat.min_le_left _ _) (Nat.le_refl 3)
  · rw [List.all_eq_true]
    intro b hb
    rcases List.mem_map.mp hb with ⟨l, _, rfl⟩
    rw [String.data_append]
    exact leadsWith_self_append _ _

/-- Witness for `advice_bullet_format`: an advice request against a 4-line
reply keeps only the first 3 lines, all bullet-marked. -/
theorem advice_bullet_format_witness :
    process_response true (fun _ => none) [] "uno\ndos\ntres\ncuatro" "dame un consejo" =
      joinWith "\n" (((((pySplitLines (emotion_step true (fun _ => none) []
        "uno\ndos\ntres\ncuatro" "dame un consejo")).map pyStrip).filter
        (fun l => !(l == ""))).take 3).map (fun l => "🔹 " ++ l))
    ∧ (((((pySplitLines (emotion_step true (fun _ => none) []
        "uno\ndos\ntres\ncuatro" "dame un consejo")).map pyStrip).filter
        (fun l => !(l == ""))).take 3).map (fun l => "🔹 " ++ l)).length ≤ 3
    ∧ (((((pySplitLines (emotion_step true (fun _ => none) []
        "uno\ndos\ntres\ncuatro" "dame un consejo")).map pyStrip).filter
        (fun l => !(l == ""))).take 3).map (fun l => "🔹 " ++ l)).all
        (fun b => leadsWith "🔹 ".data b.data) = true :=
  advice_bullet_format true (fun _ => none) [] "uno\ndos\ntres\ncuatro" "dame un consejo"
    (by decide) (by decide) (by decide)

/-- The reply of a turn does not depend on history entries in front of the
last 4 pre-turn turns: together with the freshly appended user turn these
make up the 5-turn context window, and the topic-change test reads only
the last 3 entries. -/
theorem generate_reply_ignores_old_history (g c : String → Option String)
    (s : ConversationState) (pre h : List Turn) (m : String) (hl : 5 ≤ h.length) :
    (generate_response true g c { s with history := pre ++ h } m).1 =
      (generate_response true g c { s with history := h } m).1 := by
  have e1 : (pre ++ h) ++ [Turn.mk "user" m] = pre ++ (h ++ [Turn.mk "user" m]) :=
    List.append_assoc pre h [Turn.mk "user" m]
  have hctx : context_of (pre ++ (h ++ [Turn.mk "user" m])) =
      context_of (h ++ [Turn.mk "user" m]) := by
    unfold context_of
    rw [lastN_append 5 pre _ (by simp; omega)]
  have htc : is_topic_change (pre ++ (h ++ [Turn.mk "user" m])) =
      is_topic_change (h ++ [Turn.mk "user" m]) :=
    is_topic_change_append pre _ (by simp; omega)
  have hpr : ∀ t : String, process_response true c (pre ++ (h ++ [Turn.mk "user" m])) t m
      = process_response true c (h ++ [Turn.mk "user" m]) t m :=
    fun t => process_response_hist_congr true c _ _ t m htc
  simp only [generate_response, e1]
  simp only [apply_ite ConversationState.history, ite_self]
  simp only [hctx, hpr]
  cases hG : g ("Eres Coprodelito, un asistente emocional. Contexto:\n" ++
      context_of (h ++ [Turn.mk "user" m]) ++ "\n\nNuevo mensaje: \"" ++ m ++
      "\"\n\nResponde de forma empática y natural.") <;>
    simp [hG, apply_ite ConversationState.history, ite_self, hpr]

/-- C8: the context string is exactly the last 5 history entries (all of
them when fewer than 5 exist), each formatted as `role: content` and
joined by newlines in chronological order, and the reply of a turn is
unchanged by any history entries in front of the last 5 — older turns
never influence the prompt context. -/
theorem context_window_spec (pre h h2 : List Turn) (s : ConversationState) (m : String)
    (g c : String → Option String) (hlen : h.length = 5) (hlen2 : h2.length ≤ 5) :
    context_of (pre ++ h) = joinWith "\n" (h.map (fun trn => trn.role ++ ": " ++ trn.content))
    ∧ context_of h2 = joinWith "\n" (h2.map (fun trn => trn.role ++ ": " ++ trn.content))
    ∧ (generate_response true g c { s with history := pre ++ h } m).1 =
        (generate_response true g c { s with history := h } m).1 := by
  refine ⟨?_, ?_, ?_⟩
  · unfold context_of
    rw [lastN_append 5 pre h (by omega), lastN_of_le 5 h (by omega)]
  · unfold context_of
    rw [lastN_of_le 5 h2 hlen2]
  · exact generate_reply_ignores_old_history g c s pre h m (by omega)

/-- Witness for `context_window_spec`: a 6-turn history whose oldest turn
is invisible to the context, a 2-turn history used whole, and equal
replies with and without the old turn. -/
theorem context_window_spec_witness :
    context_of ([Turn.mk "user" "viejo"] ++ [Turn.mk "assistant" "a1", Turn.mk "user" "u1",
        Turn.mk "assistant" "a2", Turn.mk "user" "u2", Turn.mk "assistant" "a3"]) =
      joinWith "\n" ([Turn.mk "assistant" "a1", Turn.mk "user" "u1",
        Turn.mk "assistant" "a2", Turn.mk "user" "u2", Turn.mk "assistant" "a3"].map
          (fun trn => trn.role ++ ": " ++ trn.content))
    ∧ context_of [Turn.mk "assistant" "b1", Turn.mk "user" "b2"] =
      joinWith "\n" ([Turn.mk "assistant" "b1", Turn.mk "user" "b2"].map
          (fun trn => trn.role ++ ": " ++ trn.content))
    ∧ (generate_response true (fun _ => some "Claro") (fun _ => none)
        { resetState with history := [Turn.mk "user" "viejo"] ++ [Turn.mk "assistant" "a1",
          Turn.mk "user" "u1", Turn.mk "assistant" "a2", Turn.mk "user" "u2",
          Turn.mk "assistant" "a3"] } "hola").1 =
      (generate_response true (fun _ => some "Claro") (fun _ => none)
        { resetState with history := [Turn.mk "assistant" "a1", Turn.mk "user" "u1",
          Turn.mk "assistant" "a2", Turn.mk "user" "u2", Turn.mk "assistant" "a3"] } "hola").1 :=
  context_window_spec [Turn.mk "user" "viejo"]
    [Turn.mk "assistant" "a1", Turn.mk "user" "u1", Turn.mk "assistant" "a2",
      Turn.mk "user" "u2", Turn.mk "assistant" "a3"]
    [Turn.mk "assistant" "b1", Turn.mk "user" "b2"]
    resetState "hola" (fun _ => some "Claro") (fun _ => none) rfl (by decide)
